import Mathlib

/-!
Verification of the PyBal configuration-observer and DNS-monitor core.

This file gives a shallow embedding of `src/pybal/config.py` and
`src/pybal/monitors/dnsquery.py` and proves the frozen claims about them.

Modelling conventions:
* Python values produced by `ast.literal_eval` and `json.loads` are modelled
  by the inductive `PyVal`, a fragment of Python data (ints, strings,
  booleans, None, lists, dicts as ordered association lists, as dicts are
  ordered in Python 3.7+).  The two library functions themselves are external
  to the repository and appear as explicit function parameters
  `literalEval` and `jsonLoads`; concrete table fragments (`litEvalFrag`,
  `jsonFrag`), faithful to CPython on the strings they mention, instantiate
  them in witnesses and counterexamples.
* Python exceptions are the inductive `PyExn`; fallible code returns
  `Except PyExn _`.
* Python equality `==` on modelled values is `pyBeq`; dicts reaching a
  comparison in this code always have pairwise distinct keys (Python dicts
  cannot hold duplicates), and on such values `pyBeq` agrees with Python.
* Effects on the coordinator (`onConfigUpdate`, `report`, `_resultUp`,
  `_resultDown`) are returned as explicit event lists; mutable attributes of
  the observer and the monitor become fields of explicit state structures.
-/

namespace PyBal

/-- Python exception classes that the modelled code can raise or catch. -/
inductive PyExn where
  | keyError
  | syntaxError
  | typeError
  | valueError
  | attributeError
  deriving DecidableEq, Repr

/-- Fragment of Python values returned by `ast.literal_eval` and
`json.loads`.  A dict is an ordered list of key-value entries. -/
inductive PyVal where
  | pyInt (n : Int)
  | pyStr (s : String)
  | pyBool (b : Bool)
  | pyNone
  | pyList (items : List PyVal)
  | pyDict (entries : List (PyVal × PyVal))
  deriving Repr

mutual

/-- Python structural equality `==` on the modelled value fragment. -/
def pyBeq : PyVal → PyVal → Bool
  | .pyInt a, .pyInt b => a == b
  | .pyStr a, .pyStr b => a == b
  | .pyBool a, .pyBool b => a == b
  | .pyNone, .pyNone => true
  | .pyList xs, .pyList ys => pyBeqList xs ys
  | .pyDict xs, .pyDict ys => pyBeqEntries xs ys
  | _, _ => false

/-- Elementwise `pyBeq` on Python lists. -/
def pyBeqList : List PyVal → List PyVal → Bool
  | [], [] => true
  | x :: xs, y :: ys => pyBeq x y && pyBeqList xs ys
  | _, _ => false

/-- Entrywise `pyBeq` on Python dict entry lists. -/
def pyBeqEntries : List (PyVal × PyVal) → List (PyVal × PyVal) → Bool
  | [], [] => true
  | (k, v) :: xs, (l, w) :: ys => pyBeq k l && pyBeq v w && pyBeqEntries xs ys
  | _, _ => false

end

mutual

/-- Reflexivity of `pyBeq`, as for Python equality on these values. -/
theorem pyBeq_refl : ∀ v : PyVal, pyBeq v v = true
  | .pyInt _ => by simp [pyBeq]
  | .pyStr _ => by simp [pyBeq]
  | .pyBool _ => by simp [pyBeq]
  | .pyNone => by simp [pyBeq]
  | .pyList xs => by rw [pyBeq]; exact pyBeqList_refl xs
  | .pyDict es => by rw [pyBeq]; exact pyBeqEntries_refl es

/-- Reflexivity of `pyBeqList`. -/
theorem pyBeqList_refl : ∀ xs : List PyVal, pyBeqList xs xs = true
  | [] => by rw [pyBeqList]
  | x :: xs => by
    rw [pyBeqList, pyBeq_refl x, pyBeqList_refl xs]; rfl

/-- Reflexivity of `pyBeqEntries`. -/
theorem pyBeqEntries_refl : ∀ es : List (PyVal × PyVal), pyBeqEntries es es = true
  | [] => by rw [pyBeqEntries]
  | (k, v) :: es => by
    rw [pyBeqEntries, pyBeq_refl k, pyBeq_refl v, pyBeqEntries_refl es]; rfl

end

/-! ### String helpers mirroring the Python `str` methods used by the code -/

/-- The characters stripped by Python `str.strip()`. -/
def pyWhitespace (c : Char) : Bool :=
  c = ' ' || c = '\t' || c = '\n' || c = '\r' || c = '\x0b' || c = '\x0c'

/-- Python `str.strip()`. -/
def pyStrip (s : String) : String :=
  String.mk (((s.data.dropWhile pyWhitespace).reverse.dropWhile pyWhitespace).reverse)

/-- Python `str.startswith`. -/
def strStartsWith (s pat : String) : Bool :=
  List.isPrefixOf pat.data s.data

/-- Python `str.endswith`. -/
def strEndsWith (s pat : String) : Bool :=
  List.isSuffixOf pat.data s.data

/-- Split a character list at every occurrence of `sep`. -/
def splitOnChar (sep : Char) : List Char → List (List Char)
  | [] => [[]]
  | c :: cs =>
    let rest := splitOnChar sep cs
    if c = sep then [] :: rest
    else
      match rest with
      | [] => [[c]]
      | r :: rs => (c :: r) :: rs

/-- Python `rawConfig.split(chr(10))`, the line splitting used by
`parseLegacyConfig`. -/
def pySplitLines (s : String) : List String :=
  (splitOnChar '\n' s.data).map (fun cs => String.mk cs)

/-! ### Python dict primitives

Dicts reaching these operations have pairwise distinct keys (Python dicts
dedupe at construction), so first-match lookup agrees with Python. -/

/-- Dict lookup by key, using Python `==` on keys. -/
def dictGet : List (PyVal × PyVal) → PyVal → Option PyVal
  | [], _ => none
  | (k, v) :: rest, key => if pyBeq k key then some v else dictGet rest key

/-- Remove a key from a dict, as `dict.pop` does after reading the value. -/
def dictRemove : List (PyVal × PyVal) → PyVal → List (PyVal × PyVal)
  | [], _ => []
  | (k, v) :: rest, key => if pyBeq k key then rest else (k, v) :: dictRemove rest key

/-- Python dict assignment `d[key] = val`: overwrite in place if the key is
present (keeping the original key object and position), else append. -/
def dictInsert : List (PyVal × PyVal) → PyVal → PyVal → List (PyVal × PyVal)
  | [], key, val => [(key, val)]
  | (k, v) :: rest, key, val =>
    if pyBeq k key then (k, val) :: rest else (k, v) :: dictInsert rest key val

/-- Whether a value may be used as a Python dict key; lists and dicts are
unhashable and assignment with such a key raises TypeError. -/
def isHashable : PyVal → Bool
  | .pyList _ => false
  | .pyDict _ => false
  | _ => true

/-- Python `server.pop(key)`: on a dict, return the value and the dict
without that key, raising KeyError when absent; a list raises TypeError for
a non-integer index; any other value has no `pop` attribute and raises
AttributeError. -/
def pyPop (v key : PyVal) : Except PyExn (PyVal × PyVal) :=
  match v with
  | .pyDict es =>
    match dictGet es key with
    | some val => .ok (val, .pyDict (dictRemove es key))
    | none => .error .keyError
  | .pyList _ => .error .typeError
  | _ => .error .attributeError

/-- Python subscription `server[key]`: KeyError on a dict missing the key,
TypeError on non-dict values subscripted with a string key. -/
def pyGetItem (v key : PyVal) : Except PyExn PyVal :=
  match v with
  | .pyDict es =>
    match dictGet es key with
    | some val => .ok val
    | none => .error .keyError
  | _ => .error .typeError

/-! ### FileConfigurationObserver.parseLegacyConfig -/

/-- The body of the `try` block for one line of a legacy configuration file:
evaluate the line as a literal, pop the `host` key, read `enabled` and
`weight` from the remainder, and build the two-key record stored in the
result; the final hashability test models the `config[host] =` assignment. -/
def evalLine (literalEval : String → Except PyExn PyVal) (line : String) :
    Except PyExn (PyVal × PyVal) :=
  match literalEval line with
  | .error e => .error e
  | .ok server =>
    match pyPop server (.pyStr "host") with
    | .error e => .error e
    | .ok (host, server2) =>
      match pyGetItem server2 (.pyStr "enabled") with
      | .error e => .error e
      | .ok enabledVal =>
        match pyGetItem server2 (.pyStr "weight") with
        | .error e => .error e
        | .ok weightVal =>
          if isHashable host then
            .ok (host, .pyDict [(.pyStr "enabled", enabledVal), (.pyStr "weight", weightVal)])
          else .error .typeError

/-- The exception classes caught by the `except` clause in
`parseLegacyConfig`: KeyError, SyntaxError, TypeError, ValueError. -/
def caughtByParser : PyExn → Bool
  | .keyError => true
  | .syntaxError => true
  | .typeError => true
  | .valueError => true
  | .attributeError => false

/-- Result of processing one line of a legacy configuration file. -/
inductive LineOutcome where
  | skip
  | record (host entry : PyVal)
  | uncaught (e : PyExn)
  deriving Repr

/-- Whether a line outcome is an uncaught exception escaping the loop. -/
def LineOutcome.isUncaught : LineOutcome → Bool
  | .uncaught _ => true
  | _ => false

/-- One iteration of the `for line in rawConfig.split` loop: strip the line,
skip blanks and comments, evaluate it, and catch the four listed exception
classes; any other exception escapes. -/
def processLine (literalEval : String → Except PyExn PyVal) (rawLine : String) :
    LineOutcome :=
  if pyStrip rawLine = "" || strStartsWith (pyStrip rawLine) "#" then .skip
  else
    match evalLine literalEval (pyStrip rawLine) with
    | .ok (host, entry) => .record host entry
    | .error e => if caughtByParser e then .skip else .uncaught e

/-- The loop of `parseLegacyConfig`, accumulating the `config` dict. -/
def parseLegacyLines (literalEval : String → Except PyExn PyVal) :
    List String → List (PyVal × PyVal) → Except PyExn (List (PyVal × PyVal))
  | [], config => .ok config
  | l :: rest, config =>
    match processLine literalEval l with
    | .skip => parseLegacyLines literalEval rest config
    | .record host entry => parseLegacyLines literalEval rest (dictInsert config host entry)
    | .uncaught e => .error e

/-- Model of `FileConfigurationObserver.parseLegacyConfig`. -/
def parseLegacyConfig (literalEval : String → Except PyExn PyVal)
    (rawConfig : String) : Except PyExn PyVal :=
  match parseLegacyLines literalEval (pySplitLines rawConfig) [] with
  | .ok config => .ok (.pyDict config)
  | .error e => .error e

/-- Model of `FileConfigurationObserver.parseJsonConfig`: `json.loads(rawConfig)`,
delegated verbatim to the external decoder. -/
def parseJsonConfig (jsonLoads : String → Except PyExn PyVal)
    (rawConfig : String) : Except PyExn PyVal :=
  jsonLoads rawConfig

/-- Model of `FileConfigurationObserver.parseConfig`: dispatch on the `.json`
suffix of the configuration URL. -/
def parseConfig (literalEval jsonLoads : String → Except PyExn PyVal)
    (configUrl rawConfig : String) : Except PyExn PyVal :=
  if strEndsWith configUrl ".json" then parseJsonConfig jsonLoads rawConfig
  else parseLegacyConfig literalEval rawConfig

/-! ### FileConfigurationObserver and HttpConfigurationObserver state -/

/-- Notification sent to the coordinator. -/
inductive ObsEvent where
  | onConfigUpdate (config : PyVal)
  deriving Repr

/-- Mutable attributes of a `FileConfigurationObserver` (also inherited by
`HttpConfigurationObserver`).  `lastFileStat` and `lastConfig` are set by
`__init__` to `None`; the model keeps `lastConfig : PyVal` with `pyNone` as
the initial Python `None`.  The field `fileStat` models the attribute of
that name which only `logError` ever assigns and which no code reads;
`running` models `reloadTask.running`. -/
structure FileObserver where
  configUrl : String
  lastFileStat : Option Nat
  lastConfig : PyVal
  fileStat : Option Nat
  running : Bool
  deriving Repr

/-- Model of `FileConfigurationObserver.logError`: log the failure, assign `None` to
the attribute `fileStat` (not to `lastFileStat`), and restart the polling
task when it is no longer running.  The boolean records whether
`startObserving` was invoked. -/
def logError (s : FileObserver) : FileObserver × Bool :=
  let s2 : FileObserver := { s with fileStat := none }
  if s2.running then (s2, false) else ({ s2 with running := true }, true)

/-- Model of `FileConfigurationObserver.reloadConfig`, one tick of the polling loop.
The results of the external calls `os.stat(self.filePath)` and
`f.read()` enter as `statResult` and `readResult`; an `Except.error` there
is an exception raised by that call, which escapes the method (third
component of the result).  Events delivered to the coordinator are the
second component. -/
def reloadConfig (literalEval jsonLoads : String → Except PyExn PyVal)
    (statResult : Except PyExn Nat) (readResult : Except PyExn String)
    (s : FileObserver) : FileObserver × List ObsEvent × Option PyExn :=
  match statResult with
  | .error e => (s, [], some e)
  | .ok fileStat =>
    if some fileStat = s.lastFileStat then (s, [], none)
    else
      let s2 : FileObserver := { s with lastFileStat := some fileStat }
      match readResult with
      | .error e => (s2, [], some e)
      | .ok rawConfig =>
        match parseConfig literalEval jsonLoads s2.configUrl rawConfig with
        | .error e => (s2, [], some e)
        | .ok config =>
          if pyBeq config s2.lastConfig then (s2, [], none)
          else ({ s2 with lastConfig := config }, [.onConfigUpdate config], none)

/-- Model of `HttpConfigurationObserver.onConfigReceived`: parse the fetched page,
and notify the coordinator exactly when the parsed configuration differs
from the last delivered one. -/
def onConfigReceived (literalEval jsonLoads : String → Except PyExn PyVal)
    (s : FileObserver) (rawConfig : String) :
    FileObserver × List ObsEvent × Option PyExn :=
  match parseConfig literalEval jsonLoads s.configUrl rawConfig with
  | .error e => (s, [], some e)
  | .ok config =>
    if pyBeq config s.lastConfig then (s, [], none)
    else ({ s with lastConfig := config }, [.onConfigUpdate config], none)

/-! ### DNSQueryMonitoringProtocol -/

/-- DNS record types the monitor queries. -/
inductive QType where
  | A
  | AAAA
  deriving DecidableEq, Repr

/-- Rendering of `dns.QUERY_TYPES[query.type]`. -/
def queryTypeStr : QType → String
  | .A => "A"
  | .AAAA => "AAAA"

/-- Severities from the `logging` module used by the monitor. -/
inductive LogLevel where
  | info
  | error
  deriving DecidableEq, Repr

/-- A call the monitor makes on its coordinator-facing interface.  A
`report` with level `none` uses the default severity of
`MonitoringProtocol.report`, whose definition is outside this slice. -/
inductive MonitorAction where
  | report (msg : String) (level : Option LogLevel)
  | resultUp
  | resultDown (reason : String)
  deriving DecidableEq, Repr

/-- Failure classes a finished DNS lookup can deliver to `_queryFailed`.
The listed twisted classes checked by the code are sibling leaf classes, so
`failure.check` is equality of constructors here; `otherFailure` is any
unrecognized exception, carrying its `str` rendering. -/
inductive DNSFailure where
  | cancelledError
  | timeoutError
  | domainError
  | authoritativeDomainError
  | dnsFormatError
  | dnsNameError
  | dnsQueryRefusedError
  | dnsQueryTimeoutError
  | dnsServerError
  | dnsUnknownError
  | otherFailure (text : String)
  deriving DecidableEq, Repr

/-- Membership in `DNSQueryMonitoringProtocol.catchList`. -/
def inCatchList : DNSFailure → Bool
  | .timeoutError => true
  | .domainError => true
  | .authoritativeDomainError => true
  | .dnsFormatError => true
  | .dnsNameError => true
  | .dnsQueryRefusedError => true
  | .dnsQueryTimeoutError => true
  | .dnsServerError => true
  | .dnsUnknownError => true
  | .cancelledError => false
  | .otherFailure _ => false

/-- Python `str(failure)`, reached only in the final `else` branch.  For the
recognized classes the exact twisted rendering is immaterial to every claim;
the class name stands in for it. -/
def failureStr : DNSFailure → String
  | .cancelledError => "twisted.internet.defer.CancelledError"
  | .timeoutError => "twisted.internet.defer.TimeoutError"
  | .domainError => "twisted.names.error.DomainError"
  | .authoritativeDomainError => "twisted.names.error.AuthoritativeDomainError"
  | .dnsFormatError => "twisted.names.error.DNSFormatError"
  | .dnsNameError => "twisted.names.error.DNSNameError"
  | .dnsQueryRefusedError => "twisted.names.error.DNSQueryRefusedError"
  | .dnsQueryTimeoutError => "twisted.names.error.DNSQueryTimeoutError"
  | .dnsServerError => "twisted.names.error.DNSServerError"
  | .dnsUnknownError => "twisted.names.error.DNSUnknownError"
  | .otherFailure text => text

/-- How `_queryFailed` leaves the errback: an early `return None`, a normal
return after `failure.trap` matched the catch list, or re-raising the
failure when `trap` did not match it. -/
inductive FailedReturn where
  | returnedNone
  | trappedOk
  | reraised (f : DNSFailure)
  deriving DecidableEq, Repr

/-- The shared tail of `_queryFailed` for every down verdict: the
elapsed-time report at ERROR severity, `_resultDown(errorStr)`, then
`failure.trap(*self.catchList)`.  `elapsedStr` is the rendering of the
format item for `runtime.seconds() - self.checkStartTime`. -/
def reportAndDown (elapsedStr errorStr : String) (failure : DNSFailure) :
    List MonitorAction × FailedReturn :=
  ([.report ("DNS query failed, " ++ elapsedStr ++ " s") (some .error),
    .resultDown errorStr],
   if inCatchList failure then .trappedOk else .reraised failure)

/-- Model of `DNSQueryMonitoringProtocol._queryFailed`. -/
def queryFailed (failOnNXDOMAIN : Bool) (queryName : String) (queryType : QType)
    (elapsedStr : String) (failure : DNSFailure) :
    List MonitorAction × FailedReturn :=
  let queryStr := ", query: " ++ queryName ++ " " ++ queryTypeStr queryType
  match failure with
  | .cancelledError => ([], .returnedNone)
  | .dnsQueryTimeoutError =>
    reportAndDown elapsedStr ("DNS query timeout" ++ queryStr) .dnsQueryTimeoutError
  | .dnsServerError =>
    reportAndDown elapsedStr ("DNS server error" ++ queryStr) .dnsServerError
  | .dnsNameError =>
    let errorStr := queryName ++ " NXDOMAIN"
    if !failOnNXDOMAIN then
      ([.report errorStr (some .info), .resultUp], .returnedNone)
    else reportAndDown elapsedStr errorStr .dnsNameError
  | .dnsQueryRefusedError =>
    reportAndDown elapsedStr ("DNS query refused" ++ queryStr) .dnsQueryRefusedError
  | f => reportAndDown elapsedStr (failureStr f) f

/-- Model of `DNSQueryMonitoringProtocol._querySuccessful`.  `addressesStr` is the
join of the `inet_ntop` renderings of the answers matching the query type;
the query type is always A or AAAA, so `resultStr` is built and nonempty. -/
def querySuccessful (queryName : String) (queryType : QType)
    (elapsedStr addressesStr : String) : List MonitorAction :=
  let resultStr := queryName ++ " " ++ queryTypeStr queryType ++ " " ++ addressesStr
  [.report ("DNS query successful, " ++ elapsedStr ++ " s"
      ++ (if resultStr = "" then "" else ": " ++ resultStr)) none,
   .resultUp]

/-- Mutable attributes of a `DNSQueryMonitoringProtocol` instance relevant
to a probe cycle: the active flag from the base class, the start marker
`checkStartTime`, the pending `reactor.callLater` handle (carrying its
delay), and the configured probe interval and NXDOMAIN policy. -/
structure MonitorState where
  active : Bool
  checkStartTime : Option Nat
  checkCall : Option Nat
  intvCheck : Nat
  failOnNXDOMAIN : Bool
  deriving DecidableEq, Repr

/-- Model of `DNSQueryMonitoringProtocol._checkFinished`: clear the start marker and,
when the monitor is still active, schedule the next check after
`intvCheck` seconds. -/
def checkFinished (s : MonitorState) : MonitorState :=
  let s2 : MonitorState := { s with checkStartTime := none }
  if s2.active then { s2 with checkCall := some s2.intvCheck } else s2

/-- Model of `DNSQueryMonitoringProtocol.stop`: the base class clears `active`, then
a pending check call is cancelled and the in-flight query deferred is
cancelled, which delivers `cancelledError` to `_queryFailed`. -/
def stopMonitor (s : MonitorState) : MonitorState :=
  { s with active := false, checkCall := none }

/-- How the in-flight lookup deferred completes. -/
inductive ProbeOutcome where
  | success (addressesStr : String)
  | failed (failure : DNSFailure)
  deriving DecidableEq, Repr

/-- The callback chain installed by `check`:
`addCallback(_querySuccessful).addErrback(_queryFailed).addBoth(_checkFinished)`.
Returns the state after `_checkFinished`, the coordinator actions, and the
failure still propagating out of the chain, if any. -/
def probeCycle (s : MonitorState) (queryName : String) (queryType : QType)
    (elapsedStr : String) (outcome : ProbeOutcome) :
    MonitorState × List MonitorAction × Option DNSFailure :=
  let step : List MonitorAction × Option DNSFailure :=
    match outcome with
    | .success addressesStr =>
      (querySuccessful queryName queryType elapsedStr addressesStr, none)
    | .failed failure =>
      let handled := queryFailed s.failOnNXDOMAIN queryName queryType elapsedStr failure
      (handled.1,
        match handled.2 with
        | .reraised f => some f
        | _ => none)
  (checkFinished s, step.1, step.2)

/-- Whether an action is a terminal verdict of a probe cycle. -/
def isTerminal : MonitorAction → Bool
  | .resultUp => true
  | .resultDown _ => true
  | .report _ _ => false

/-- Number of terminal verdicts among a list of actions. -/
def terminalCount (actions : List MonitorAction) : Nat :=
  (actions.filter isTerminal).length

/-! ### Concrete fragments of the external library functions

`litEvalFrag` and `jsonFrag` specify `ast.literal_eval` and `json.loads`
pointwise on the exact strings used in the witnesses below, agreeing with
CPython there; every other string is mapped to the syntax error those
functions raise on non-literal text. -/

/-- The legacy line with host a, enabled True, weight 10, in single-quoted
dict syntax; braces and quotes appear as character escapes. -/
def lineA : String :=
  "\x7b\x27host\x27: \x27a\x27, \x27enabled\x27: True, \x27weight\x27: 10\x7d"

/-- The legacy line with host b, enabled False, weight 5. -/
def lineB : String :=
  "\x7b\x27host\x27: \x27b\x27, \x27enabled\x27: False, \x27weight\x27: 5\x7d"

/-- The legacy line with host c, enabled True, weight 10 and an extra key
foo beyond the required three. -/
def lineC : String :=
  "\x7b\x27host\x27: \x27c\x27, \x27enabled\x27: True, \x27weight\x27: 10, \x27foo\x27: 1\x7d"

/-- A truncated dict literal, which is a syntax error. -/
def lineBad : String := "\x7b\x27host\x27:"

/-- Value of `ast.literal_eval` on `lineA`. -/
def dictA : PyVal :=
  .pyDict [(.pyStr "host", .pyStr "a"), (.pyStr "enabled", .pyBool true),
           (.pyStr "weight", .pyInt 10)]

/-- Value of `ast.literal_eval` on `lineB`. -/
def dictB : PyVal :=
  .pyDict [(.pyStr "host", .pyStr "b"), (.pyStr "enabled", .pyBool false),
           (.pyStr "weight", .pyInt 5)]

/-- Value of `ast.literal_eval` on `lineC`. -/
def dictC : PyVal :=
  .pyDict [(.pyStr "host", .pyStr "c"), (.pyStr "enabled", .pyBool true),
           (.pyStr "weight", .pyInt 10), (.pyStr "foo", .pyInt 1)]

/-- Pointwise fragment of `ast.literal_eval`: the literal `42` evaluates to
the integer 42, the three record lines evaluate to their dicts, and all
other strings raise SyntaxError. -/
def litEvalFrag (s : String) : Except PyExn PyVal :=
  if s = "42" then .ok (.pyInt 42)
  else if s = lineA then .ok dictA
  else if s = lineB then .ok dictB
  else if s = lineC then .ok dictC
  else .error .syntaxError

/-- Pointwise fragment of `json.loads`: a bare number, a top-level array,
and an object whose entry is missing `enabled` and has a negative weight;
other strings raise the decoding error (a ValueError subclass). -/
def jsonFrag (s : String) : Except PyExn PyVal :=
  if s = "3" then .ok (.pyInt 3)
  else if s = "[1, 2]" then .ok (.pyList [.pyInt 1, .pyInt 2])
  else if s = "\x7b\x22a\x22: \x7b\x22weight\x22: -5\x7d\x7d" then
    .ok (.pyDict [(.pyStr "a", .pyDict [(.pyStr "weight", .pyInt (-5))])])
  else .error .valueError

/-- The record with enabled True and weight 10 produced for host c. -/
def recC : PyVal :=
  .pyDict [(.pyStr "enabled", .pyBool true), (.pyStr "weight", .pyInt 10)]

/-- The parsed mapping for a file consisting of `lineA` alone. -/
def configA : PyVal :=
  .pyDict [(.pyStr "a",
    .pyDict [(.pyStr "enabled", .pyBool true), (.pyStr "weight", .pyInt 10)])]

/-! ### Lemmas about the legacy parser -/

/-- Looking up the key just inserted succeeds. -/
theorem dictGet_insert_self (m : List (PyVal × PyVal)) (k v : PyVal) :
    dictGet (dictInsert m k v) k = some v := by
  induction m with
  | nil => simp [dictInsert, dictGet, pyBeq_refl]
  | cons hd tl ih =>
    obtain ⟨k0, v0⟩ := hd
    by_cases h : pyBeq k0 k = true
    · simp [dictInsert, h, dictGet]
    · simp [dictInsert, h, dictGet, ih]

/-- Insertion never removes a key. -/
theorem dictGet_insert_preserve (m : List (PyVal × PyVal)) (k v key : PyVal)
    (h : (dictGet m key).isSome = true) :
    (dictGet (dictInsert m k v) key).isSome = true := by
  induction m with
  | nil => simp [dictGet] at h
  | cons hd tl ih =>
    obtain ⟨k0, v0⟩ := hd
    rw [dictInsert]
    rw [dictGet] at h
    by_cases hk : pyBeq k0 k = true
    · rw [if_pos hk, dictGet]
      by_cases hkey : pyBeq k0 key = true
      · rw [if_pos hkey]; rfl
      · rw [if_neg hkey]
        rw [if_neg hkey] at h
        exact h
    · rw [if_neg hk, dictGet]
      by_cases hkey : pyBeq k0 key = true
      · rw [if_pos hkey]; rfl
      · rw [if_neg hkey]
        rw [if_neg hkey] at h
        exact ih h

/-- Every entry of `dictInsert m k v` is an entry of `m` or has value `v`. -/
theorem dictInsert_mem (m : List (PyVal × PyVal)) (k v : PyVal) :
    ∀ kv ∈ dictInsert m k v, kv ∈ m ∨ kv.2 = v := by
  induction m with
  | nil =>
    intro kv hkv
    rw [dictInsert] at hkv
    rcases List.mem_singleton.mp hkv with rfl
    right; rfl
  | cons hd tl ih =>
    obtain ⟨k0, v0⟩ := hd
    intro kv hkv
    rw [dictInsert] at hkv
    by_cases hk : pyBeq k0 k = true
    · rw [if_pos hk] at hkv
      rcases List.mem_cons.mp hkv with rfl | hkv
      · right; rfl
      · left; exact List.mem_cons_of_mem _ hkv
    · rw [if_neg hk] at hkv
      rcases List.mem_cons.mp hkv with rfl | hkv
      · left; exact List.mem_cons_self _ _
      · rcases ih kv hkv with hin | hval
        · left; exact List.mem_cons_of_mem _ hin
        · right; exact hval

/-- A record produced by the body of the `try` block has exactly the keys
`enabled` and `weight`. -/
theorem evalLine_shape (literalEval : String → Except PyExn PyVal) (line : String)
    (host entry : PyVal) (h : evalLine literalEval line = .ok (host, entry)) :
    ∃ e w, entry = PyVal.pyDict [(.pyStr "enabled", e), (.pyStr "weight", w)] := by
  unfold evalLine at h
  repeat' split at h
  all_goals first
    | (injection h
       done)
    | (injection h with h2
       injection h2 with h3 h4
       exact ⟨_, _, h4.symm⟩)

/-- A line recorded by the parser loop carries a two-key record. -/
theorem processLine_record_shape (literalEval : String → Except PyExn PyVal)
    (rawLine : String) (host entry : PyVal)
    (h : processLine literalEval rawLine = .record host entry) :
    ∃ e w, entry = PyVal.pyDict [(.pyStr "enabled", e), (.pyStr "weight", w)] := by
  unfold processLine at h
  split at h
  · exact absurd h (by simp)
  · split at h
    · rename_i host0 entry0 heq
      injection h with h1 h2
      subst h1; subst h2
      exact evalLine_shape literalEval _ _ _ heq
    · split at h
      · exact absurd h (by simp)
      · exact absurd h (by simp)

/-- Invariant propagation through the parser loop: if every accumulated
entry is a two-key record, so is every entry of a successful result. -/
theorem parseLegacyLines_shape (literalEval : String → Except PyExn PyVal) :
    ∀ (ls : List String) (acc m : List (PyVal × PyVal)),
      (∀ kv ∈ acc, ∃ e w,
          kv.2 = PyVal.pyDict [(.pyStr "enabled", e), (.pyStr "weight", w)]) →
      parseLegacyLines literalEval ls acc = .ok m →
      ∀ kv ∈ m, ∃ e w,
        kv.2 = PyVal.pyDict [(.pyStr "enabled", e), (.pyStr "weight", w)] := by
  intro ls
  induction ls with
  | nil =>
    intro acc m hacc h
    simp only [parseLegacyLines, Except.ok.injEq] at h
    rw [← h]; exact hacc
  | cons l rest ih =>
    intro acc m hacc h
    rw [parseLegacyLines] at h
    rcases hpl : processLine literalEval l with _ | ⟨host0, entry0⟩ | e <;> rw [hpl] at h
    · exact ih acc m hacc h
    · refine ih (dictInsert acc host0 entry0) m ?_ h
      intro kv hkv
      rcases dictInsert_mem acc host0 entry0 kv hkv with hin | hval
      · exact hacc kv hin
      · rw [hval]
        exact processLine_record_shape literalEval l host0 entry0 hpl
    · simp at h

/-- The parser loop succeeds when no line raises an uncaught exception, the
keys already accumulated survive, and the host of every recorded line is a
key of the result. -/
theorem parseLegacyLines_keys (literalEval : String → Except PyExn PyVal) :
    ∀ (ls : List String) (acc : List (PyVal × PyVal)),
      ls.all (fun l => !(processLine literalEval l).isUncaught) = true →
      ∃ m, parseLegacyLines literalEval ls acc = .ok m ∧
        (∀ key, (dictGet acc key).isSome = true → (dictGet m key).isSome = true) ∧
        (∀ l ∈ ls, ∀ host entry, processLine literalEval l = .record host entry →
          (dictGet m host).isSome = true) := by
  intro ls
  induction ls with
  | nil =>
    intro acc _
    exact ⟨acc, rfl, fun key h => h, by simp⟩
  | cons l rest ih =>
    intro acc hall
    simp only [List.all_cons, Bool.and_eq_true] at hall
    obtain ⟨hl, hrest⟩ := hall
    rcases hpl : processLine literalEval l with _ | ⟨host0, entry0⟩ | e
    · obtain ⟨m, hm, hkeys, hrec⟩ := ih acc hrest
      refine ⟨m, ?_, hkeys, ?_⟩
      · rw [parseLegacyLines, hpl]; exact hm
      · intro l2 hl2 host entry hpl2
        rcases List.mem_cons.mp hl2 with rfl | hl2
        · rw [hpl] at hpl2; exact absurd hpl2 (by simp)
        · exact hrec l2 hl2 host entry hpl2
    · obtain ⟨m, hm, hkeys, hrec⟩ := ih (dictInsert acc host0 entry0) hrest
      refine ⟨m, ?_, ?_, ?_⟩
      · rw [parseLegacyLines, hpl]; exact hm
      · intro key hkey
        exact hkeys key (dictGet_insert_preserve acc host0 entry0 key hkey)
      · intro l2 hl2 host entry hpl2
        rcases List.mem_cons.mp hl2 with rfl | hl2
        · rw [hpl] at hpl2
          injection hpl2 with h1 h2
          subst h1
          refine hkeys host0 ?_
          rw [dictGet_insert_self]; rfl
        · exact hrec l2 hl2 host entry hpl2
    · rw [hpl] at hl
      simp [LineOutcome.isUncaught] at hl

/-! ### Claim C1 -/

/-- C1 counterexample: the claim says no input string can make
`parseLegacyConfig` raise, yet on the one-line file `42` the literal
evaluates to an integer, `server.pop` raises AttributeError, which is not
among the caught classes, and the whole call fails. -/
theorem parseLegacyConfig_raises_on_int_line :
    parseLegacyConfig litEvalFrag "42" = .error .attributeError := rfl

/-- C1 (amended): when every line of the input either is skippable, parses
to a usable record, or fails with one of the caught classes (KeyError,
SyntaxError, TypeError, ValueError) — so no uncaught exception such as the
AttributeError of a non-dict literal arises — `parseLegacyConfig` returns a
mapping, malformed lines are skipped rather than fatal, and the host of
every well-formed line appears in the result. -/
theorem parseLegacyConfig_recovers (literalEval : String → Except PyExn PyVal)
    (rawConfig : String)
    (h : (pySplitLines rawConfig).all
        (fun l => !(processLine literalEval l).isUncaught) = true) :
    ∃ m, parseLegacyConfig literalEval rawConfig = .ok (.pyDict m) ∧
      ∀ l ∈ pySplitLines rawConfig, ∀ host entry,
        processLine literalEval l = .record host entry →
        (dictGet m host).isSome = true := by
  obtain ⟨m, hm, _, hrec⟩ :=
    parseLegacyLines_keys literalEval (pySplitLines rawConfig) [] h
  exact ⟨m, by rw [parseLegacyConfig, hm], hrec⟩

/-- A legacy file with a syntactically broken line between two valid ones. -/
def rawC1 : String := lineA ++ "\n" ++ lineBad ++ "\n" ++ lineB

/-- Witness for C1: on a file of two valid records around one malformed
line, the amended theorem applies and yields a mapping holding both valid
hosts. -/
theorem parseLegacyConfig_recovers_witness :
    ∃ m, parseLegacyConfig litEvalFrag rawC1 = .ok (.pyDict m) ∧
      ∀ l ∈ pySplitLines rawC1, ∀ host entry,
        processLine litEvalFrag l = .record host entry →
        (dictGet m host).isSome = true :=
  parseLegacyConfig_recovers litEvalFrag rawC1 (by decide)

/-! ### Claim C9 -/

/-- C9: every value of a mapping returned by `parseLegacyConfig` is a dict
holding exactly the keys `enabled` and `weight` taken from its line; any
further key of the input line is dropped before the record is stored. -/
theorem parseLegacyConfig_entry_shape (literalEval : String → Except PyExn PyVal)
    (rawConfig : String) (m : List (PyVal × PyVal))
    (h : parseLegacyConfig literalEval rawConfig = .ok (.pyDict m)) :
    ∀ kv ∈ m, ∃ e w,
      kv.2 = PyVal.pyDict [(.pyStr "enabled", e), (.pyStr "weight", w)] := by
  have hlines : parseLegacyLines literalEval (pySplitLines rawConfig) [] = .ok m := by
    rw [parseLegacyConfig] at h
    split at h
    · rename_i config heq
      injection h with h2
      injection h2 with h3
      rw [heq, h3]
    · injection h
  exact parseLegacyLines_shape literalEval (pySplitLines rawConfig) [] m
    (by simp) hlines

/-- Witness for C9: the line with the extra key `foo` yields the two-key
record for host `c`, the extra key being discarded. -/
theorem parseLegacyConfig_entry_shape_witness :
    ∃ e w, ((PyVal.pyStr "c", recC) : PyVal × PyVal).2
      = PyVal.pyDict [(.pyStr "enabled", e), (.pyStr "weight", w)] :=
  parseLegacyConfig_entry_shape litEvalFrag lineC [(.pyStr "c", recC)] rfl
    (.pyStr "c", recC) (List.mem_singleton.mpr rfl)

/-! ### Observer states used in witnesses and counterexamples -/

/-- A legacy-format (non-json) configuration URL. -/
def legacyUrl : String := "file:///etc/pybal/pool"

/-- An observer that has delivered `configA` and stored stat token 7. -/
def obsStat7 : FileObserver :=
  { configUrl := legacyUrl, lastFileStat := some 7, lastConfig := configA,
    fileStat := none, running := true }

/-- An observer that has delivered `configA` and stored stat token 0. -/
def obsC3 : FileObserver :=
  { configUrl := legacyUrl, lastFileStat := some 0, lastConfig := configA,
    fileStat := none, running := true }

/-- A freshly constructed observer: both remembered values still `None`. -/
def obsFresh : FileObserver :=
  { configUrl := legacyUrl, lastFileStat := none, lastConfig := .pyNone,
    fileStat := none, running := true }

/-- A freshly constructed observer for a `.json` HTTP source. -/
def obsJson : FileObserver :=
  { configUrl := "http://config.example/pools.json", lastFileStat := none,
    lastConfig := .pyNone, fileStat := none, running := true }

/-! ### Claim C8 -/

/-- C8: on a tick whose `os.stat` result equals the stored stat token,
`reloadConfig` returns at once: whatever the read would have produced, no
event is delivered, no exception escapes, and the observer state is
unchanged — the file is neither read nor parsed. -/
theorem reloadConfig_noop_when_stat_unchanged
    (literalEval jsonLoads : String → Except PyExn PyVal)
    (readResult : Except PyExn String) (s : FileObserver) (st : Nat)
    (h : some st = s.lastFileStat) :
    reloadConfig literalEval jsonLoads (.ok st) readResult s = (s, [], none) := by
  simp only [reloadConfig, if_pos h]

/-- Witness for C8: a concrete observer holding stat token 7 ignores a tick
that stats to 7 again. -/
theorem reloadConfig_noop_witness :
    reloadConfig litEvalFrag jsonFrag (.ok 7) (.ok lineA) obsStat7
      = (obsStat7, [], none) :=
  reloadConfig_noop_when_stat_unchanged litEvalFrag jsonFrag (.ok lineA) obsStat7 7 rfl

/-! ### Claim C2 -/

/-- C2 (divergence exhibit): `logError` assigns `None` to the attribute
`fileStat` — which nothing reads — and leaves `lastFileStat` untouched, so
a following tick whose stat equals the stored token remains a no-op: the
file is not re-read.  The claim (and section 9 of the spec) state that the
last-seen stat token itself is reset to null, forcing a re-read on the very
next tick. -/
theorem logError_keeps_lastFileStat :
    (logError obsStat7).1.lastFileStat = some 7 ∧
    (logError obsStat7).1.fileStat = none ∧
    reloadConfig litEvalFrag jsonFrag (.ok 7) (.ok lineA) (logError obsStat7).1
      = ((logError obsStat7).1, [], none) :=
  ⟨rfl, rfl, rfl⟩

/-! ### Claim C3 -/

/-- C3 counterexample: a tick whose stat token changed (0 to 1) but whose
parsed mapping equals the last delivered one invokes no update hook and
keeps the mapping — yet the remembered stat token IS updated to 1,
contradicting the claim that both remembered values are left unchanged. -/
theorem reloadConfig_updates_stat_on_equal_config :
    (reloadConfig litEvalFrag jsonFrag (.ok 1) (.ok lineA) obsC3).2.1 = [] ∧
    (reloadConfig litEvalFrag jsonFrag (.ok 1) (.ok lineA) obsC3).1.lastConfig
      = obsC3.lastConfig ∧
    obsC3.lastFileStat = some 0 ∧
    (reloadConfig litEvalFrag jsonFrag (.ok 1) (.ok lineA) obsC3).1.lastFileStat
      = some 1 :=
  ⟨rfl, rfl, rfl, rfl⟩

/-- C3 (amended): once the stat token differs from the stored one,
`reloadConfig` remembers the new stat token unconditionally, before
parsing; the update hook fires and the new mapping is remembered exactly
when the parsed mapping differs from the last delivered one, which
otherwise stays unchanged. -/
theorem reloadConfig_stat_then_config
    (literalEval jsonLoads : String → Except PyExn PyVal)
    (s : FileObserver) (st : Nat) (rawConfig : String) (config : PyVal)
    (hstat : ¬ some st = s.lastFileStat)
    (hparse : parseConfig literalEval jsonLoads s.configUrl rawConfig = .ok config) :
    (pyBeq config s.lastConfig = true →
      reloadConfig literalEval jsonLoads (.ok st) (.ok rawConfig) s
        = ({ s with lastFileStat := some st }, [], none)) ∧
    (pyBeq config s.lastConfig = false →
      reloadConfig literalEval jsonLoads (.ok st) (.ok rawConfig) s
        = ({ s with lastFileStat := some st, lastConfig := config },
           [.onConfigUpdate config], none)) := by
  constructor <;> intro hbeq <;>
    simp only [reloadConfig, if_neg hstat, hparse, hbeq, if_true, if_false,
      Bool.false_eq_true]

/-- Witness for C3: at the counterexample state, the stat token advances to
1 while the equal mapping is not re-delivered. -/
theorem reloadConfig_stat_then_config_witness :
    reloadConfig litEvalFrag jsonFrag (.ok 1) (.ok lineA) obsC3
      = ({ obsC3 with lastFileStat := some 1 }, [], none) :=
  (reloadConfig_stat_then_config litEvalFrag jsonFrag obsC3 1 lineA configA
      (by decide) rfl).1 rfl

/-! ### Claim C4 -/

/-- C4: for a file-observer tick that reads and parses successfully and for
an HTTP-observer response that parses successfully, `onConfigUpdate` is
delivered exactly when the parsed mapping differs from the last notified
one; re-reading the identical payload right away delivers nothing. -/
theorem onConfigUpdate_iff_changed
    (literalEval jsonLoads : String → Except PyExn PyVal)
    (s : FileObserver) (st : Nat) (rawConfig : String) (config : PyVal)
    (hstat : ¬ some st = s.lastFileStat)
    (hparse : parseConfig literalEval jsonLoads s.configUrl rawConfig = .ok config) :
    ((reloadConfig literalEval jsonLoads (.ok st) (.ok rawConfig) s).2.1
      = if pyBeq config s.lastConfig then [] else [.onConfigUpdate config]) ∧
    ((onConfigReceived literalEval jsonLoads s rawConfig).2.1
      = if pyBeq config s.lastConfig then [] else [.onConfigUpdate config]) ∧
    (onConfigReceived literalEval jsonLoads
        (onConfigReceived literalEval jsonLoads s rawConfig).1 rawConfig).2.1
      = [] := by
  refine ⟨?_, ?_, ?_⟩
  · by_cases hbeq : pyBeq config s.lastConfig = true
    · rw [(reloadConfig_stat_then_config literalEval jsonLoads s st rawConfig config
        hstat hparse).1 hbeq, if_pos hbeq]
    · rw [(reloadConfig_stat_then_config literalEval jsonLoads s st rawConfig config
        hstat hparse).2 (Bool.not_eq_true _ ▸ hbeq), if_neg hbeq]
  · by_cases hbeq : pyBeq config s.lastConfig = true
    · simp only [onConfigReceived, hparse, hbeq, if_true, if_pos hbeq]
    · simp only [onConfigReceived, hparse, Bool.not_eq_true _ ▸ hbeq, if_false,
        Bool.false_eq_true, if_neg hbeq]
  · by_cases hbeq : pyBeq config s.lastConfig = true
    · simp only [onConfigReceived, hparse, hbeq, if_true]
    · simp only [onConfigReceived, hparse, Bool.not_eq_true _ ▸ hbeq, if_false,
        Bool.false_eq_true, hbeq, pyBeq_refl, if_true]

/-- Witness for C4: a fresh observer receives exactly one update for the
first successful parse, and the immediate re-read of the same payload is
silent. -/
theorem onConfigUpdate_iff_changed_witness :
    ((reloadConfig litEvalFrag jsonFrag (.ok 1) (.ok lineA) obsFresh).2.1
      = if pyBeq configA obsFresh.lastConfig then [] else [.onConfigUpdate configA]) ∧
    ((onConfigReceived litEvalFrag jsonFrag obsFresh lineA).2.1
      = if pyBeq configA obsFresh.lastConfig then [] else [.onConfigUpdate configA]) ∧
    (onConfigReceived litEvalFrag jsonFrag
        (onConfigReceived litEvalFrag jsonFrag obsFresh lineA).1 lineA).2.1
      = [] :=
  onConfigUpdate_iff_changed litEvalFrag jsonFrag obsFresh 1 lineA configA
    (by decide) rfl

/-! ### Claim C10 -/

/-- C10: with a `.json` source URL, every decoded JSON value — object or
not, whatever its fields — is returned verbatim by `parseConfig` and handed
unchanged to the coordinator exactly when it differs from the last
delivered value; only a decoding failure makes the call raise, and it
propagates unchanged. -/
theorem parseJsonConfig_no_validation
    (literalEval jsonLoads : String → Except PyExn PyVal)
    (s : FileObserver) (rawConfig : String)
    (hurl : strEndsWith s.configUrl ".json" = true) :
    (∀ v, jsonLoads rawConfig = .ok v →
      parseConfig literalEval jsonLoads s.configUrl rawConfig = .ok v ∧
      onConfigReceived literalEval jsonLoads s rawConfig
        = (if pyBeq v s.lastConfig then (s, [], none)
           else ({ s with lastConfig := v }, [.onConfigUpdate v], none))) ∧
    (∀ e, jsonLoads rawConfig = .error e →
      onConfigReceived literalEval jsonLoads s rawConfig = (s, [], some e)) := by
  have hdispatch : ∀ r, jsonLoads rawConfig = r →
      parseConfig literalEval jsonLoads s.configUrl rawConfig = r := by
    intro r hr
    rw [parseConfig, if_pos hurl, parseJsonConfig, hr]
  refine ⟨fun v hv => ⟨hdispatch _ hv, ?_⟩, fun e he => ?_⟩
  · by_cases hbeq : pyBeq v s.lastConfig = true
    · simp only [onConfigReceived, hdispatch _ hv, hbeq, if_true, if_pos hbeq]
    · simp only [onConfigReceived, hdispatch _ hv, Bool.not_eq_true _ ▸ hbeq,
        if_false, Bool.false_eq_true, if_neg hbeq]
  · simp only [onConfigReceived, hdispatch _ he]

/-- Witness for C10: the non-object payload `[1, 2]` is decoded, passed
through `parseConfig` verbatim and delivered as-is to the coordinator. -/
theorem parseJsonConfig_no_validation_witness :
    parseConfig litEvalFrag jsonFrag obsJson.configUrl "[1, 2]"
      = .ok (.pyList [.pyInt 1, .pyInt 2]) ∧
    onConfigReceived litEvalFrag jsonFrag obsJson "[1, 2]"
      = ({ obsJson with lastConfig := .pyList [.pyInt 1, .pyInt 2] },
         [.onConfigUpdate (.pyList [.pyInt 1, .pyInt 2])], none) := by
  have h := (parseJsonConfig_no_validation litEvalFrag jsonFrag obsJson "[1, 2]"
    (by decide)).1 (.pyList [.pyInt 1, .pyInt 2]) rfl
  exact ⟨h.1, h.2.trans rfl⟩

/-! ### Claim C5 -/

/-- C5: on NXDOMAIN (`DNSNameError`), with `fail-on-nxdomain` false the
handler reports `<name> NXDOMAIN` at INFO severity and signals up; with it
true it signals down with reason `<name> NXDOMAIN` (after the elapsed-time
failure report at ERROR severity). -/
theorem queryFailed_nxdomain_policy (queryName : String) (queryType : QType)
    (elapsedStr : String) :
    queryFailed false queryName queryType elapsedStr .dnsNameError
      = ([.report (queryName ++ " NXDOMAIN") (some .info), .resultUp],
         .returnedNone) ∧
    queryFailed true queryName queryType elapsedStr .dnsNameError
      = ([.report ("DNS query failed, " ++ elapsedStr ++ " s") (some .error),
          .resultDown (queryName ++ " NXDOMAIN")], .trappedOk) :=
  ⟨rfl, rfl⟩

/-! ### Claim C6 -/

/-- C6: a cancellation failure makes `_queryFailed` return `None` at once:
no report, no up verdict, no down verdict, whatever the monitor
configuration and query are. -/
theorem queryFailed_cancelled_silent (failOnNXDOMAIN : Bool) (queryName : String)
    (queryType : QType) (elapsedStr : String) :
    queryFailed failOnNXDOMAIN queryName queryType elapsedStr .cancelledError
      = ([], .returnedNone) :=
  rfl

/-! ### Claim C7 -/

/-- C7: every completed probe cycle performs exactly one terminal verdict —
up or down — except a cancelled one, which performs none; and the
`addBoth` completion handler runs on every branch, clearing the check start
marker and scheduling the next check after `intvCheck` exactly when the
monitor is still active. -/
theorem probeCycle_one_terminal (s : MonitorState) (queryName : String)
    (queryType : QType) (elapsedStr : String) (outcome : ProbeOutcome) :
    (terminalCount (probeCycle s queryName queryType elapsedStr outcome).2.1
      = if outcome = .failed .cancelledError then 0 else 1) ∧
    (probeCycle s queryName queryType elapsedStr outcome).1.checkStartTime = none ∧
    ((probeCycle s queryName queryType elapsedStr outcome).1.checkCall
      = if s.active then some s.intvCheck else s.checkCall) := by
  refine ⟨?_, ?_, ?_⟩
  · rcases outcome with a | f
    · simp [probeCycle, querySuccessful, terminalCount, isTerminal]
    · rcases f with _ | _ | _ | _ | _ | _ | _ | _ | _ | _ | t <;>
        try simp [probeCycle, queryFailed, reportAndDown, terminalCount, isTerminal]
      · rcases hb : s.failOnNXDOMAIN with _ | _ <;>
          simp [probeCycle, queryFailed, hb, reportAndDown, terminalCount, isTerminal]
  · rcases hact : s.active with _ | _ <;>
      simp [probeCycle, checkFinished, hact]
  · rcases hact : s.active with _ | _ <;>
      simp [probeCycle, checkFinished, hact]

end PyBal
